import Mathlib

/-!
Shallow embedding of `src/ipro_in_tax_division.py` (joaosegurilho/bioinfo_scripts).

The script is a four-stage pipeline: taxonomy resolution (external ete3 call,
modelled as an oracle `Int → List Int`), a paginated HTTP fetch of InterPro
domain hits (`get_query_from_interpro` / inner `get_pg`, lines 47-79), a
filter/reshape stage (`process_interpro_obj`, lines 81-95), and a tree render
(`make_tree`, lines 97-173) of which only the output path computation
(line 172) is data-relevant.  Runtime failures of the Python code
(NameError, TypeError, IndexError, ValueError, ZeroDivisionError) are made
explicit with `Except PyExn`; the network and the filesystem are oracles
passed as function arguments.
-/

set_option autoImplicit false

/-- The Python runtime errors the script can actually hit. -/
inductive PyExn where
  /-- `NameError`: a name referenced but never bound (carries the name). -/
  | nameError (missing : String)
  /-- `TypeError`: e.g. unpacking `None` into a tuple. -/
  | typeError
  /-- `IndexError`: `[0]` on an empty list. -/
  | indexError
  /-- `ValueError`: `int(...)` on a non-numeric string. -/
  | valueError
  /-- `ZeroDivisionError`: division by `len([])` (line 67). -/
  | zeroDivision
deriving DecidableEq

/-- One element of a location's `fragments` list: JSON keys `start` and `end`. -/
structure Fragment where
  start : Int
  «end» : Int
deriving DecidableEq

/-- One element of `entry_protein_locations`: holds a `fragments` list. -/
structure Location where
  fragments : List Fragment
deriving DecidableEq

/-- One element of a record's `entries` list. -/
structure Entry where
  entry_protein_locations : List Location
deriving DecidableEq

/-- The numeric value of a decimal digit character. -/
def charDigit? (c : Char) : Option Nat :=
  if c.isDigit then some (c.toNat - '0'.toNat) else none

/-- Accumulate decimal digits left to right; `none` on a non-digit. -/
def digitsValAux : List Char → Nat → Option Nat
  | [], acc => some acc
  | c :: cs, acc =>
    match charDigit? c with
    | none => none
    | some d => digitsValAux cs (acc * 10 + d)

/-- Python's `int(...)` applied to a string: an optional leading minus sign
followed by decimal digits (the forms surrounding whitespace, a plus sign
or underscores would also allow are irrelevant to the taxonomic-id strings
this script parses); `none` models the `ValueError` Python raises. -/
def pyInt? (s : String) : Option Int :=
  match s.data with
  | [] => none
  | '-' :: cs =>
    match cs with
    | [] => none
    | _ => (digitsValAux cs 0).map (fun n => -(n : Int))
  | cs => (digitsValAux cs 0).map (fun n => (n : Int))

/-- JSON object `metadata.source_organism`.  The API serves `taxId` as a
string; line 88 converts it with `int(...)`. -/
structure SourceOrganism where
  taxId : String
deriving DecidableEq

/-- JSON object `metadata` of a raw API record. -/
structure Metadata where
  accession : String
  length : Int
  source_organism : SourceOrganism
deriving DecidableEq

/-- One raw API record, as consumed by `process_interpro_obj` (lines 84-88).
An absent `entries[0]` or `entry_protein_locations[0]` is modelled by the
corresponding list being empty (Python raises `IndexError` there). -/
structure RawRecord where
  metadata : Metadata
  entries : List Entry
deriving DecidableEq

/-- The `@dataclass Protein` of lines 39-44. -/
structure Protein where
  prot_acc : String
  prot_len : Int
  prot_tax : Int
  dom_loc : List (Int × Int)
deriving DecidableEq

/-! ## Filter/transform stage: `process_interpro_obj`, lines 81-95 -/

/-- The body of one loop iteration of `process_interpro_obj` (lines 85-93),
with the extractions in source order: `accession` (line 85), the fragment
list of the first entry's first location (line 86, two `[0]` indexings that
raise `IndexError` on empty lists), `length` (line 87), `int(... taxId)`
(line 88, `ValueError` when the string does not parse), and only then the
membership test of line 90. -/
def process_record (protein : RawRecord) (tax_to_keep : List Int) :
    Except PyExn (Option Protein) :=
  let prot_acc := protein.metadata.accession
  match protein.entries with
  | [] => .error .indexError
  | entry0 :: _ =>
    match entry0.entry_protein_locations with
    | [] => .error .indexError
    | loc0 :: _ =>
      let locations := loc0.fragments.map (fun x => (x.start, x.«end»))
      let prot_len := protein.metadata.length
      match pyInt? protein.metadata.source_organism.taxId with
      | none => .error .valueError
      | some tax_acc =>
        if tax_acc ∈ tax_to_keep then
          .ok (some ⟨prot_acc, prot_len, tax_acc, locations⟩)
        else
          .ok none

/-- `process_interpro_obj` (lines 81-95): fold `process_record` over the raw
records in order, appending each kept `Protein`; the first record that
raises aborts the whole call. -/
def process_interpro_obj : List RawRecord → List Int → Except PyExn (List Protein)
  | [], _ => .ok []
  | protein :: rest, tax_to_keep =>
    match process_record protein tax_to_keep with
    | .error e => .error e
    | .ok kept =>
      match process_interpro_obj rest tax_to_keep with
      | .error e => .error e
      | .ok tail => .ok (kept.elim tail (fun pr => pr :: tail))

/-- The `(start, end)` pairs line 86 would extract: first entry's first
location's fragments (empty when either index would be out of range). -/
def locsOf (p : RawRecord) : List (Int × Int) :=
  match p.entries with
  | [] => []
  | entry0 :: _ =>
    match entry0.entry_protein_locations with
    | [] => []
    | loc0 :: _ => loc0.fragments.map (fun x => (x.start, x.«end»))

/-- The integer taxonomic id line 88 would compute (0 as a dummy when the
string does not parse; well-formedness below rules that case out). -/
def taxOf (p : RawRecord) : Int :=
  (pyInt? p.metadata.source_organism.taxId).getD 0

/-- The reshaping of one raw record into a `Protein` performed by
lines 85-92: accession and length copied verbatim, taxonomic id parsed,
coordinates from the first entry's first location only. -/
def reshape (p : RawRecord) : Protein :=
  ⟨p.metadata.accession, p.metadata.length, taxOf p, locsOf p⟩

/-- A raw record on which the extractions of lines 85-88 all succeed. -/
def wfRecord (p : RawRecord) : Bool :=
  match p.entries with
  | [] => false
  | entry0 :: _ =>
    match entry0.entry_protein_locations with
    | [] => false
    | _ :: _ => (pyInt? p.metadata.source_organism.taxId).isSome

theorem process_record_wf (p : RawRecord) (keep : List Int)
    (h : wfRecord p = true) :
    process_record p keep
      = .ok (if taxOf p ∈ keep then some (reshape p) else none) := by
  rcases p with ⟨meta, entries⟩
  cases entries with
  | nil => simp [wfRecord] at h
  | cons e rest =>
    cases hl : e.entry_protein_locations with
    | nil => simp [wfRecord, hl] at h
    | cons loc0 ls =>
      simp only [wfRecord, hl] at h
      obtain ⟨t, ht⟩ := Option.isSome_iff_exists.mp h
      simp [process_record, hl, ht, reshape, taxOf, locsOf]
      split <;> rfl

theorem process_record_ok (p : RawRecord) (keep : List Int)
    (kept : Option Protein) (h : process_record p keep = .ok kept) :
    wfRecord p = true
      ∧ kept = (if taxOf p ∈ keep then some (reshape p) else none) := by
  rcases p with ⟨meta, entries⟩
  cases entries with
  | nil => simp [process_record] at h
  | cons e rest =>
    cases hl : e.entry_protein_locations with
    | nil => simp [process_record, hl] at h
    | cons loc0 ls =>
      cases ht : pyInt? meta.source_organism.taxId with
      | none => simp [process_record, hl, ht] at h
      | some t =>
        refine ⟨by simp [wfRecord, hl, ht], ?_⟩
        by_cases hmem : t ∈ keep <;>
          simp [process_record, hl, ht, hmem, reshape, taxOf, locsOf] at h ⊢ <;>
          simp [← h]

/-- Success characterisation of the filter stage: when it does not raise,
its output is exactly the membership-filtered input, reshaped, in input
order. -/
theorem process_ok_eq (ip_obj : List RawRecord) (keep : List Int)
    (out : List Protein) (h : process_interpro_obj ip_obj keep = .ok out) :
    out = (ip_obj.filter (fun p => decide (taxOf p ∈ keep))).map reshape := by
  induction ip_obj generalizing out with
  | nil =>
    simp only [process_interpro_obj] at h
    cases h
    simp
  | cons p rest ih =>
    simp only [process_interpro_obj] at h
    cases hrec : process_record p keep with
    | error e => rw [hrec] at h; cases h
    | ok kept =>
      rw [hrec] at h
      cases hrest : process_interpro_obj rest keep with
      | error e => rw [hrest] at h; cases h
      | ok tail =>
        rw [hrest] at h
        cases h
        obtain ⟨-, hk⟩ := process_record_ok p keep kept hrec
        by_cases hmem : taxOf p ∈ keep <;>
          simp [hk, hmem, List.filter_cons, ih tail hrest]

/-- Well-formed inputs never raise: the filter stage returns exactly the
membership-filtered, reshaped records. -/
theorem process_wf_eq (ip_obj : List RawRecord) (keep : List Int)
    (hwf : ∀ p ∈ ip_obj, wfRecord p = true) :
    process_interpro_obj ip_obj keep
      = .ok ((ip_obj.filter (fun p => decide (taxOf p ∈ keep))).map reshape) := by
  induction ip_obj with
  | nil => simp [process_interpro_obj]
  | cons p rest ih =>
    have hp := hwf p (by simp)
    have hrest : ∀ q ∈ rest, wfRecord q = true := fun q hq => hwf q (by simp [hq])
    simp only [process_interpro_obj, process_record_wf p keep hp, ih hrest]
    by_cases hmem : taxOf p ∈ keep <;> simp [hmem, List.filter_cons]

/-- Every protein a successful filter run emits passed the membership test
of line 90. -/
theorem process_ok_mem (ip_obj : List RawRecord) (keep : List Int)
    (out : List Protein) (h : process_interpro_obj ip_obj keep = .ok out) :
    ∀ p ∈ out, p.prot_tax ∈ keep := by
  intro p hp
  rw [process_ok_eq ip_obj keep out h] at hp
  simp only [List.mem_map, List.mem_filter] at hp
  obtain ⟨q, ⟨-, hmem⟩, rfl⟩ := hp
  simpa [reshape] using of_decide_eq_true hmem

/-! ## Domain-hit fetcher: `get_query_from_interpro` and `get_pg`, lines 47-79

The fetcher is generic in the element type of the `results` lists (the raw
JSON entries are opaque to it); the pipeline instantiates it at
`RawRecord`.  The network is an oracle `String → ReqOutcome α`. -/

/-- One parsed JSON page of the paginated API: keys `count`, `results`,
`next` (line 42 of the spec; used at lines 63, 67, 75-76). -/
structure Page (α : Type) where
  count : Int
  results : List α
  next : Option String
deriving DecidableEq

/-- What one `session.get(url, timeout=10.0)` (line 56) does: return a
response whose body parses to a `Page` with `r.ok` true, return a
non-success response (`r.ok` false), or raise (timeout, connection error). -/
inductive ReqOutcome (α : Type) where
  | ok (page : Page α)
  | httpErr
  | raise
deriving DecidableEq

/-- What `get_pg` can return: the tuple `(_temp_obj, next_page)` of line 64,
or Python's implicit `None` when `r.ok` is false (the `if` of line 61 has no
`else`, so control falls off the end of the function). -/
inductive GetPgRet (α : Type) where
  | page (obj : Page α) (next_page : Option String)
  | noneRet
deriving DecidableEq

/-- The local variables of `get_pg` that are bound at the moment its
`except:` branch (line 57-59) starts running when `session.get` itself
raised: only the parameter `url` — the assignment to `r` never happened. -/
def get_pg_except_locals : List String := ["url"]

/-- Evaluate a Python name against the set of bound locals: an unbound name
raises `NameError`. -/
def evalName (locals : List String) (v : String) : Except PyExn Unit :=
  if v ∈ locals then .ok () else .error (.nameError v)

/-- The `except:` branch of `get_pg` (lines 57-59): the diagnostic
`print(f"The search: {r.json()} didnt work.")` evaluates the name `r`
first; if that raises, the `return (None, None)` of line 59 is never
reached (with the locals of `get_pg_except_locals` it is dead code).  Were
the print to succeed, the branch would return `(None, None)`, which the
tuple assignment of line 71 would unpack without error. -/
def get_pg_except_branch {α : Type} (locals : List String) :
    Except PyExn (GetPgRet α) :=
  match evalName locals "r" with
  | .error e => .error e
  | .ok _ => .ok (.page ⟨0, [], none⟩ none)

/-- `get_pg` (lines 53-64): sleep, request, and either hand back the parsed
page with its `next` link, run the failing `except:` branch, or fall off the
end returning `None` when `r.ok` is false. -/
def get_pg {α : Type} (net : String → ReqOutcome α) (url : String) :
    Except PyExn (GetPgRet α) :=
  match net url with
  | .raise => get_pg_except_branch get_pg_except_locals
  | .httpErr => .ok .noneRet
  | .ok obj => .ok (.page obj obj.next)

/-- The mutable state of the `while` loop of lines 69-77: the accumulator
`obj['results']` and the loop variable `next_page`. -/
structure LoopState (α : Type) where
  acc : List α
  next_page : Option String
deriving DecidableEq

/-- One iteration body of the `while` loop (lines 70-77): call `get_pg` on
the current page inside a bare `try`.  Any exception (the `NameError` from
the failing diagnostic print, or the `TypeError` from unpacking a `None`
return) is caught and `continue` leaves the state unchanged — the same page
will be retried.  On success the page's `results` entries are appended and
`next_page` is replaced by the response's `next`. -/
def loop_body {α : Type} (net : String → ReqOutcome α) (st : LoopState α)
    (url : String) : LoopState α :=
  match get_pg net url with
  | .error _ => st
  | .ok .noneRet => st
  | .ok (.page obj np) => ⟨st.acc ++ obj.results, np⟩

/-- The `while next_page != None` loop of lines 69-77, with a fuel bound on
the number of iterations: `none` means the loop has not exited within
`fuel` iterations (under persistent failure it never exits).  `reqs`
accumulates every URL handed to `get_pg`, to count network requests. -/
def fetch_loop {α : Type} (net : String → ReqOutcome α) (fuel : Nat)
    (st : LoopState α) (reqs : List String) :
    Option (LoopState α × List String) :=
  match st.next_page with
  | none => some (st, reqs)
  | some url =>
    match fuel with
    | 0 => none
    | fuel2 + 1 => fetch_loop net fuel2 (loop_body net st url) (reqs ++ [url])

/-- Line 49: the API base. -/
def interpro_base : String :=
  "https://www.ebi.ac.uk/interpro/api/protein/uniprot/entry/interpro/"

/-- Line 50: `base_url = "/".join([base, hit_id])` — note the base already
ends in a slash, so the joined URL has a double slash, faithfully kept. -/
def base_url (hit_id : String) : String :=
  interpro_base ++ "/" ++ hit_id

/-- Module-level state left by the `try: from tqdm import tqdm` block of
lines 28-34: whether the name `tqdm` is bound, and the `TQDM_ON` flag. -/
structure ModuleState where
  tqdm_defined : Bool
  TQDM_ON : Bool
deriving DecidableEq

/-- Lines 28-34: a failed import is caught, a message ("Continuing
without.") is printed and `TQDM_ON = False` is set — the name `tqdm` stays
unbound.  A successful import sets `TQDM_ON = True`. -/
def init_tqdm (tqdm_importable : Bool) : ModuleState :=
  if tqdm_importable then ⟨true, true⟩ else ⟨false, false⟩

/-- What `get_query_from_interpro` hands back: the accumulated `results`
(line 79) together with every URL requested during the call. -/
structure FetchResult (α : Type) where
  results : List α
  requested : List String
deriving DecidableEq

/-- `get_query_from_interpro` (lines 47-79).  The first page is requested
outside any `try` (line 66), so its failures propagate: the `NameError`
from `get_pg`'s broken diagnostic, or the `TypeError` from unpacking a
`None` return.  Line 67 computes `total = round(int(obj['count']) /
len(obj['results']))`, whose only modelled effect is the
`ZeroDivisionError` when the first page's `results` is empty (`total` only
feeds the progress bar).  Line 68 then evaluates the name `tqdm`, a
`NameError` when the import failed.  Finally the `while` loop of
lines 69-77 runs; an outer `none` means it never exited within `fuel`. -/
def get_query_from_interpro {α : Type} (ms : ModuleState)
    (net : String → ReqOutcome α) (fuel : Nat) (hit_id : String) :
    Option (Except PyExn (FetchResult α)) :=
  match get_pg net (base_url hit_id) with
  | .error e => some (.error e)
  | .ok .noneRet => some (.error .typeError)
  | .ok (.page obj np) =>
    if obj.results.length = 0 then some (.error .zeroDivision)
    else if ms.tqdm_defined then
      (fetch_loop net fuel ⟨obj.results, np⟩ [base_url hit_id]).map
        (fun p => .ok ⟨p.1.acc, p.2⟩)
    else some (.error (.nameError "tqdm"))

/-- The spec's description of pagination: starting from an optional `next`
URL, request each page in turn, collect all its `results` entries and the
URL itself, and stop exactly when `next` is null; `none` when the chain is
longer than `fuel`. -/
def spec_follow_next {α : Type} (pages : String → Page α) :
    Option String → Nat → Option (List α × List String)
  | none, _ => some ([], [])
  | some _, 0 => none
  | some url, fuel + 1 =>
    (spec_follow_next pages (pages url).next fuel).map
      (fun pr => ((pages url).results ++ pr.1, url :: pr.2))

/-- On an always-successful network, the fetch loop is exactly the spec's
follow-the-next-links accumulation. -/
theorem fetch_loop_ok {α : Type} (pages : String → Page α) :
    ∀ (fuel : Nat) (acc : List α) (np : Option String) (reqs : List String),
      fetch_loop (fun u => ReqOutcome.ok (pages u)) fuel ⟨acc, np⟩ reqs
        = (spec_follow_next pages np fuel).map
            (fun pr => (⟨acc ++ pr.1, none⟩, reqs ++ pr.2)) := by
  intro fuel
  induction fuel with
  | zero =>
    intro acc np reqs
    cases np <;> simp [fetch_loop, spec_follow_next]
  | succ n ih =>
    intro acc np reqs
    cases np with
    | none => simp [fetch_loop, spec_follow_next]
    | some url =>
      simp only [fetch_loop, loop_body, get_pg, spec_follow_next,
        ih (acc ++ (pages url).results) (pages url).next (reqs ++ [url])]
      cases spec_follow_next pages (pages url).next n <;>
        simp [List.append_assoc]

/-! ## Cache path, render path, `main` (lines 97-189) and the CLI guard
(lines 192-203) -/

/-- Line 178: `path_file = f"ip_obj_{tax_id}_{query_dom_id}.pkl"` — a
relative path, hence in the current working directory. -/
def path_file (tax_id : Int) (query_dom_id : String) : String :=
  "ip_obj_" ++ toString tax_id ++ "_" ++ query_dom_id ++ ".pkl"

/-- Line 172: `save_to_dir + f"{queried_dom}_in_{main_tax_id}.pdf"` — plain
string concatenation, with no path separator inserted between the directory
and the file name. -/
def tree_render_path (save_to_dir : String) (queried_dom : String)
    (main_tax_id : Int) : String :=
  save_to_dir ++ queried_dom ++ "_in_" ++ toString main_tax_id ++ ".pdf"

/-- The path format the spec states for the rendered tree:
`<output_dir>/<domain_id>_in_<tax_id>.pdf`, i.e. with a `/` separating the
directory from the file name. -/
def spec_tree_path (output_dir : String) (queried_dom : String)
    (main_tax_id : Int) : String :=
  output_dir ++ "/" ++ queried_dom ++ "_in_" ++ toString main_tax_id ++ ".pdf"

/-- Observable trace of one `main` run (lines 175-189): which branch of the
cache check ran, how many times the fetch stage (`get_query_from_interpro`)
and the filter stage (`process_interpro_obj`) were invoked, what was
pickled to the cache (path and list, `none` when nothing was written),
where the tree was rendered, and the protein list handed to `make_tree`. -/
structure MainTrace where
  loaded_from_cache : Bool
  fetch_calls : Nat
  filter_calls : Nat
  cache_written : Option (String × List Protein)
  rendered_to : String
  tree_input : List Protein
deriving DecidableEq

namespace Script

/-- `main` (lines 175-189).  The filesystem is an oracle `fs` mapping a
path to the pickled protein list it holds (or `none` when
`os.path.exists` is false); `descendant_taxa` is the
`ncbi.get_descendant_taxa` oracle of line 176.  When the cache file exists
its contents are loaded and the fetch and filter stages are skipped
entirely (lines 179-181); otherwise the fetch runs (its errors propagate
out of `main`), the filter runs (likewise), and the result is pickled to
`path_file` (lines 183-186).  Either way `make_tree` renders to the line
172 path.  An outer `none` means the fetch loop never terminated. -/
def main (fs : String → Option (List Protein))
    (descendant_taxa : Int → List Int) (ms : ModuleState)
    (net : String → ReqOutcome RawRecord) (fuel : Nat)
    (tax_id : Int) (query_dom_id : String) (save_to_dir : String) :
    Option (Except PyExn MainTrace) :=
  let descendents := descendant_taxa tax_id
  match fs (path_file tax_id query_dom_id) with
  | some cached =>
    some (.ok ⟨true, 0, 0, none,
      tree_render_path save_to_dir query_dom_id tax_id, cached⟩)
  | none =>
    match get_query_from_interpro ms net fuel query_dom_id with
    | none => none
    | some (.error e) => some (.error e)
    | some (.ok fr) =>
      match process_interpro_obj fr.results descendents with
      | .error e => some (.error e)
      | .ok processed =>
        some (.ok ⟨false, 1, 1,
          some (path_file tax_id query_dom_id, processed),
          tree_render_path save_to_dir query_dom_id tax_id, processed⟩)

end Script

/-- Outcome of the `__main__` guard. -/
inductive CliOutcome where
  /-- `main(tax_id, query_dom_id, save_to_dir)` is called (line 203). -/
  | run (tax_id : Int) (query_dom_id : String) (save_to_dir : String)
  /-- The `except:` branch of line 200 ran: `raise "Need a tax_id and a
  query domain, none provided."` aborts the process. -/
  | raised
deriving DecidableEq

/-- The `__main__` guard (lines 192-203).  `argv` includes the script name
at index 0.  Inside the `try`: `int(argv[1])` (IndexError / ValueError),
`str(argv[2])` (IndexError), then `if len(argv) == 3: save_to_dir =
str(argv[3])` — when exactly the two required arguments were given,
`len(argv)` IS 3 and `argv[3]` raises IndexError, caught by the bare
`except`; with three user arguments (`len(argv) == 4`) the `else` branch
sets `save_to_dir = "./"`, ignoring the supplied directory. -/
def cli_main (argv : List String) : CliOutcome :=
  match argv.get? 1 with
  | none => .raised
  | some a1 =>
    match pyInt? a1 with
    | none => .raised
    | some tax_id =>
      match argv.get? 2 with
      | none => .raised
      | some query_dom_id =>
        if argv.length = 3 then
          match argv.get? 3 with
          | none => .raised
          | some a3 => .run tax_id query_dom_id a3
        else
          .run tax_id query_dom_id "./"

/-! ## Concrete demonstration inputs used by the witnesses -/

/-- A well-formed raw record for Homo sapiens (taxId 9606), one entry with
one location of one fragment (5, 60). -/
def rec_kept : RawRecord :=
  ⟨⟨"P111", 300, ⟨"9606"⟩⟩, [⟨[⟨[⟨5, 60⟩]⟩]⟩]⟩

/-- A well-formed raw record for Mus musculus (taxId 10090). -/
def rec_dropped : RawRecord :=
  ⟨⟨"P222", 120, ⟨"10090"⟩⟩, [⟨[⟨[⟨1, 9⟩]⟩]⟩]⟩

/-- A raw record with an empty `entries` list: `protein['entries'][0]` at
line 86 raises `IndexError` on it. -/
def malformed_record : RawRecord :=
  ⟨⟨"P999", 100, ⟨"9606"⟩⟩, []⟩

/-- The `Protein` that `process_interpro_obj` builds from `rec_kept`. -/
def prot_demo : Protein := ⟨"P111", 300, 9606, [(5, 60)]⟩

/-! ## The claims -/

/-- C1: for every input list of raw API records (well-formed, so that the
extractions of lines 85-88 succeed) and every collection of acceptable
taxonomic ids, `process_interpro_obj` returns exactly the records whose
`metadata.source_organism.taxId` (converted to int) is a member, each
reshaped into a `Protein` with accession and length copied verbatim and
coordinates taken only from the first entry's first location's fragments;
non-members contribute nothing. -/
theorem c1_process_filters_exactly (ip_obj : List RawRecord)
    (tax_to_keep : List Int) (hwf : ∀ p ∈ ip_obj, wfRecord p = true) :
    process_interpro_obj ip_obj tax_to_keep
      = .ok ((ip_obj.filter (fun p => decide (taxOf p ∈ tax_to_keep))).map
          reshape) :=
  process_wf_eq ip_obj tax_to_keep hwf

/-- Witness for C1 at a concrete two-record input where only the first
record's organism is acceptable. -/
theorem c1_witness :
    process_interpro_obj [rec_kept, rec_dropped] [9606]
      = .ok (([rec_kept, rec_dropped].filter
          (fun p => decide (taxOf p ∈ [9606]))).map reshape) :=
  c1_process_filters_exactly [rec_kept, rec_dropped] [9606] (by decide)

/-- C9: `process_interpro_obj` preserves order — whenever it succeeds, its
output is a sublist of the input list reshaped record by record, so the
retained records keep their relative input order, with no duplication and
at most one output record per input record. -/
theorem c9_process_preserves_order (ip_obj : List RawRecord)
    (tax_to_keep : List Int) (out : List Protein)
    (h : process_interpro_obj ip_obj tax_to_keep = .ok out) :
    List.Sublist out (ip_obj.map reshape) := by
  rw [process_ok_eq ip_obj tax_to_keep out h]
  exact List.Sublist.map reshape (List.filter_sublist ip_obj)

/-- Witness for C9 at a concrete input: the single kept record is a sublist
of the two reshaped inputs. -/
theorem c9_witness :
    List.Sublist [prot_demo] ([rec_dropped, rec_kept].map reshape) :=
  c9_process_preserves_order [rec_dropped, rec_kept] [9606] [prot_demo] rfl

/-- C10: the extractions of lines 85-88 happen before the membership test
of line 90, so a malformed record (here: empty `entries`, so
`protein['entries'][0]` raises) aborts the whole filter run for every
acceptable set and every remainder of the input — in particular when its
taxonomic id (9606) is not in the set, as with the empty set; and a first
page whose `results` list is empty makes line 67 divide by zero, so
`get_query_from_interpro` raises `ZeroDivisionError` instead of returning,
whatever the module state, fuel and hit id. -/
theorem c10_extraction_before_membership :
    (∀ (tax_to_keep : List Int) (rest : List RawRecord),
        process_interpro_obj (malformed_record :: rest) tax_to_keep
          = .error .indexError)
    ∧ taxOf malformed_record ∉ ([] : List Int)
    ∧ (∀ (ms : ModuleState) (fuel : Nat) (hit_id : String),
        get_query_from_interpro ms
          (fun _ => ReqOutcome.ok (⟨0, ([] : List Nat), none⟩ : Page Nat))
          fuel hit_id
          = some (.error .zeroDivision)) :=
  ⟨fun _ _ => rfl, by decide, fun _ _ _ => rfl⟩

/-- The failing diagnostic print: with only `url` bound, evaluating the
`except:` branch of `get_pg` raises `NameError` for `r`. -/
theorem get_pg_except_branch_nameError {α : Type} :
    (get_pg_except_branch get_pg_except_locals : Except PyExn (GetPgRet α))
      = .error (.nameError "r") := rfl

/-- C3: in the fetch loop, any request failure on a page after the first is
caught and the same page is silently retried without bound: the iteration
body leaves the loop state (page URL and accumulator) unchanged, so the
loop never exits within any number of iterations; and when `session.get`
raised, the diagnostic print of the `except:` branch references the unbound
name `r` — the print itself raises `NameError`, which the loop's bare
`except` swallows instead of an error reaching the caller. -/
theorem c3_unbounded_silent_retry {α : Type} (net : String → ReqOutcome α)
    (st : LoopState α) (url : String)
    (hpage : st.next_page = some url)
    (hfail : net url = .raise ∨ net url = .httpErr) :
    (∀ (fuel : Nat) (reqs : List String), fetch_loop net fuel st reqs = none)
    ∧ loop_body net st url = st
    ∧ "r" ∉ get_pg_except_locals
    ∧ (net url = .raise → get_pg net url = .error (.nameError "r")) := by
  have hbody : loop_body net st url = st := by
    rcases hfail with h | h
    · simp [loop_body, get_pg, h, get_pg_except_branch_nameError]
    · simp [loop_body, get_pg, h]
  refine ⟨?_, hbody, by decide, fun h => ?_⟩
  · intro fuel
    induction fuel with
    | zero => intro reqs; simp [fetch_loop, hpage]
    | succ n ih => intro reqs; simp [fetch_loop, hpage, hbody, ih]
  · simp [get_pg, h, get_pg_except_branch_nameError]

/-- A network where every request raises. -/
def net_down : String → ReqOutcome Nat := fun _ => .raise

/-- A loop state stuck on page `"u"` with an empty accumulator. -/
def st_stuck : LoopState Nat := ⟨[], some "u"⟩

/-- Witness for C3 on an always-raising network: the loop makes no progress
in 7 iterations and `get_pg`'s failure branch raises `NameError` for `r`. -/
theorem c3_witness :
    fetch_loop net_down 7 st_stuck [] = none
    ∧ get_pg net_down "u" = .error (.nameError "r") := by
  have h := c3_unbounded_silent_retry net_down st_stuck "u" rfl (Or.inl rfl)
  exact ⟨h.1 7 [], h.2.2.2 rfl⟩

/-- C2: when the cache file `ip_obj_<tax_id>_<domain_id>.pkl` exists, `main`
loads the protein list from it and the fetch stage and the filter stage are
both skipped — zero calls to either, nothing written, the cached list is
what reaches the renderer — so no network request is issued. -/
theorem c2_cache_short_circuits_fetch
    (fs : String → Option (List Protein)) (descendant_taxa : Int → List Int)
    (ms : ModuleState) (net : String → ReqOutcome RawRecord) (fuel : Nat)
    (tax_id : Int) (query_dom_id save_to_dir : String)
    (cached : List Protein)
    (hcache : fs (path_file tax_id query_dom_id) = some cached) :
    Script.main fs descendant_taxa ms net fuel tax_id query_dom_id save_to_dir
      = some (.ok ⟨true, 0, 0, none,
          tree_render_path save_to_dir query_dom_id tax_id, cached⟩) := by
  unfold Script.main
  rw [hcache]

/-- A filesystem on which every path holds the pickled `[prot_demo]`. -/
def fs_hit : String → Option (List Protein) := fun _ => some [prot_demo]

/-- A network for `RawRecord` pages where every request raises. -/
def net_dead : String → ReqOutcome RawRecord := fun _ => .raise

/-- Witness for C2: with the cache present, `main` succeeds with the cached
list even though the network is entirely down. -/
theorem c2_witness :
    Script.main fs_hit (fun _ => [9606]) (init_tqdm true) net_dead 0
        2 "IPR000001" "./"
      = some (.ok ⟨true, 0, 0, none,
          tree_render_path "./" "IPR000001" 2, [prot_demo]⟩) :=
  c2_cache_short_circuits_fetch fs_hit (fun _ => [9606]) (init_tqdm true)
    net_dead 0 2 "IPR000001" "./" [prot_demo] rfl

/-- C7: every `Protein` that `main` writes to the cache file has a
taxonomic id that is a member of the descendant set computed for the run's
root id; no record outside that set is ever serialized. -/
theorem c7_cache_write_invariant
    (fs : String → Option (List Protein)) (descendant_taxa : Int → List Int)
    (ms : ModuleState) (net : String → ReqOutcome RawRecord) (fuel : Nat)
    (tax_id : Int) (query_dom_id save_to_dir : String)
    (tr : MainTrace) (cpath : String) (written : List Protein)
    (hrun : Script.main fs descendant_taxa ms net fuel tax_id query_dom_id
        save_to_dir = some (.ok tr))
    (hw : tr.cache_written = some (cpath, written)) :
    ∀ p ∈ written, p.prot_tax ∈ descendant_taxa tax_id := by
  unfold Script.main at hrun
  cases hfs : fs (path_file tax_id query_dom_id) with
  | some cached =>
    rw [hfs] at hrun
    simp only [Option.some.injEq, Except.ok.injEq] at hrun
    rw [← hrun] at hw
    cases hw
  | none =>
    rw [hfs] at hrun
    cases hq : get_query_from_interpro ms net fuel query_dom_id with
    | none => rw [hq] at hrun; cases hrun
    | some r =>
      rw [hq] at hrun
      cases r with
      | error e => simp at hrun
      | ok fr =>
        cases hp : process_interpro_obj fr.results (descendant_taxa tax_id) with
        | error e => simp [hp] at hrun
        | ok processed =>
          simp only [hp, Option.some.injEq, Except.ok.injEq] at hrun
          rw [← hrun] at hw
          simp only [Option.some.injEq, Prod.mk.injEq] at hw
          rw [← hw.2]
          exact process_ok_mem fr.results (descendant_taxa tax_id) processed hp

/-- A filesystem with no cache file. -/
def fs_none : String → Option (List Protein) := fun _ => none

/-- A one-page network whose single result is `rec_kept`. -/
def net_one_page : String → ReqOutcome RawRecord :=
  fun _ => .ok ⟨1, [rec_kept], none⟩

/-- The trace of a fresh `main` run over `net_one_page`. -/
def trace_demo : MainTrace :=
  ⟨false, 1, 1, some (path_file 2 "IPR000001", [prot_demo]),
    tree_render_path "./" "IPR000001" 2, [prot_demo]⟩

/-- Witness for C7 on a concrete fresh run: the single cached protein's
taxonomic id is in the descendant set. -/
theorem c7_witness : prot_demo.prot_tax ∈ (fun _ => [9606]) (2 : Int) :=
  c7_cache_write_invariant fs_none (fun _ => [9606]) (init_tqdm true)
    net_one_page 0 2 "IPR000001" "./" trace_demo
    (path_file 2 "IPR000001") [prot_demo] rfl rfl prot_demo (by simp)

/-- C4 (as the code actually behaves): the `len(argv) == 3` test of
line 196 is off by one, so with exactly the two required arguments the
guard reads `argv[3]`, hits `IndexError` and re-raises; with a third
argument supplied the `else` branch runs and the argument is ignored in
favour of `"./"`; with a required argument missing it raises. -/
theorem c4_cli_argument_handling :
    cli_main ["prot_w_dom.py", "2", "IPR000001"] = .raised
    ∧ cli_main ["prot_w_dom.py", "2", "IPR000001", "outdir"]
        = .run 2 "IPR000001" "./"
    ∧ cli_main ["prot_w_dom.py", "2"] = .raised := ⟨rfl, rfl, rfl⟩

/-- A one-page network over `Nat` entries. -/
def net_one_nat : String → ReqOutcome Nat := fun _ => .ok ⟨1, [7], none⟩

/-- C5 (as the code actually behaves): a failed tqdm import is caught at
module load (`TQDM_ON = False`, the name `tqdm` left unbound), but the
fetcher then references `tqdm` unconditionally at line 68, so instead of
continuing in a degraded mode it aborts with `NameError` even on a
perfectly healthy network. -/
theorem c5_missing_tqdm_aborts_fetcher :
    (init_tqdm false).TQDM_ON = false
    ∧ (init_tqdm false).tqdm_defined = false
    ∧ get_query_from_interpro (init_tqdm false) net_one_nat 5 "IPR000001"
        = some (.error (.nameError "tqdm")) := ⟨rfl, rfl, rfl⟩

/-- A network whose every page has an empty `results` list and no `next`. -/
def net_empty : String → ReqOutcome Nat := fun _ => .ok ⟨0, [], none⟩

/-- Counterexample to C6 as stated: a first page with `next == null` but an
empty `results` list makes line 67 divide by zero, so the fetcher raises
instead of returning that page's (empty) results. -/
theorem c6_counterexample :
    get_query_from_interpro (init_tqdm true) net_empty 5 "IPR000001"
        = some (.error .zeroDivision)
    ∧ get_query_from_interpro (init_tqdm true) net_empty 5 "IPR000001"
        ≠ some (.ok ⟨[], [base_url "IPR000001"]⟩) := by
  refine ⟨rfl, fun h => ?_⟩
  rw [show get_query_from_interpro (init_tqdm true) net_empty 5 "IPR000001"
      = some (.error .zeroDivision) from rfl] at h
  exact Except.noConfusion (Option.some.inj h)

/-- C6 (amended with a non-empty first page): on an always-successful
network the fetcher follows the `next` link of each response, appending
every entry of each page's `results` to the accumulator, and stops exactly
when `next` is null — its value is the spec's follow-the-links
accumulation; in particular when the first page's `next` is null it returns
exactly that page's results having requested only the one base URL. -/
theorem c6_pagination_follows_next {α : Type} (pages : String → Page α)
    (fuel : Nat) (hit_id : String)
    (hne : (pages (base_url hit_id)).results ≠ []) :
    get_query_from_interpro (init_tqdm true) (fun u => ReqOutcome.ok (pages u))
        fuel hit_id
      = (spec_follow_next pages (pages (base_url hit_id)).next fuel).map
          (fun pr => .ok ⟨(pages (base_url hit_id)).results ++ pr.1,
            base_url hit_id :: pr.2⟩)
    ∧ ((pages (base_url hit_id)).next = none →
        get_query_from_interpro (init_tqdm true)
            (fun u => ReqOutcome.ok (pages u)) fuel hit_id
          = some (.ok ⟨(pages (base_url hit_id)).results,
              [base_url hit_id]⟩)) := by
  have hc : ¬ (pages (base_url hit_id)).results.length = 0 := by
    simpa [List.length_eq_zero] using hne
  have h1 : get_query_from_interpro (init_tqdm true)
      (fun u => ReqOutcome.ok (pages u)) fuel hit_id
      = (fetch_loop (fun u => ReqOutcome.ok (pages u)) fuel
          ⟨(pages (base_url hit_id)).results, (pages (base_url hit_id)).next⟩
          [base_url hit_id]).map (fun p => Except.ok ⟨p.1.acc, p.2⟩) := by
    simp only [get_query_from_interpro, get_pg]
    rw [if_neg hc]
    exact if_pos rfl
  have h2 : get_query_from_interpro (init_tqdm true)
      (fun u => ReqOutcome.ok (pages u)) fuel hit_id
      = (spec_follow_next pages (pages (base_url hit_id)).next fuel).map
          (fun pr => .ok ⟨(pages (base_url hit_id)).results ++ pr.1,
            base_url hit_id :: pr.2⟩) := by
    rw [h1, fetch_loop_ok pages fuel]
    cases spec_follow_next pages (pages (base_url hit_id)).next fuel <;> simp
  refine ⟨h2, fun hnext => ?_⟩
  rw [h2, hnext]
  simp [spec_follow_next]

/-- A single-page network over `Nat` entries with three results. -/
def pages_single : String → Page Nat := fun _ => ⟨3, [1, 2, 3], none⟩

/-- Witness for C6 (amended): a non-empty single page with `next == null`
is returned verbatim with exactly one request issued. -/
theorem c6_witness :
    get_query_from_interpro (init_tqdm true)
        (fun u => ReqOutcome.ok (pages_single u)) 5 "IPR000777"
      = some (.ok ⟨[1, 2, 3], [base_url "IPR000777"]⟩) :=
  (c6_pagination_follows_next pages_single 5 "IPR000777" (by decide)).2 rfl

/-- Counterexample to C8 as stated: line 172 concatenates the output
directory and the file name with no path separator, so for an output
directory without a trailing slash the rendered path is not
`<output_dir>/<domain_id>_in_<tax_id>.pdf`. -/
theorem c8_counterexample :
    tree_render_path "out" "IPR000001" 2 ≠ spec_tree_path "out" "IPR000001" 2
    ∧ tree_render_path "out" "IPR000001" 2 = "outIPR000001_in_2.pdf" := by
  refine ⟨by decide, by decide⟩

/-- C8 (amended): the cache file is the relative path
`ip_obj_<tax_id>_<domain_id>.pkl` (hence in the current working
directory), and the rendered tree goes to the plain concatenation
`<output_dir><domain_id>_in_<tax_id>.pdf`, which coincides with the spec's
`<output_dir>/<domain_id>_in_<tax_id>.pdf` exactly when the output
directory ends with a slash — as the CLI default `"./"` does. -/
theorem c8_artifact_paths (tax_id : Int) (query_dom_id output_dir : String) :
    path_file tax_id query_dom_id
        = "ip_obj_" ++ toString tax_id ++ "_" ++ query_dom_id ++ ".pkl"
    ∧ tree_render_path (output_dir ++ "/") query_dom_id tax_id
        = spec_tree_path output_dir query_dom_id tax_id
    ∧ tree_render_path "./" query_dom_id tax_id
        = "./" ++ query_dom_id ++ "_in_" ++ toString tax_id ++ ".pdf" :=
  ⟨rfl, rfl, rfl⟩
